import Mathlib

/-!
Shallow embedding of the electron-dl download tracker (src/unnamed/part_000).

The source registers a `will-download` listener on a session.  Per started
item it resolves a save path, then attaches `updated` and `done` handlers
that maintain three shared byte counters and a set of active items, emit UI
side effects (badge, progress bar, dialogs) and invoke user callbacks.
We embed the counter state as `RegState`, the per-item closure values as
`ItemCtx`, and every observable action (UI call, user callback, listener
removal, save-path assignment) as an `Effect` collected in a list, in the
order the source performs them.

JavaScript specifics kept faithfully:
* `options.errorMessage || default` and `options.directory || downloads`
  treat the empty string as falsy (`jsOrString`);
* `options.filename` is tested for truthiness (`optTruthyStr`);
* `{showBadge: true, ...options}` defaults `showBadge` to `true`
  (`Option.getD true` at the use sites);
* `BrowserWindow.fromWebContents` may return `null`; the handlers then
  throw a `TypeError` when they reach `window_.isDestroyed()`.  A handler
  run is `(state, effects, threw)`: `threw = true` marks that abrupt stop,
  with exactly the state changes and effects performed before it.
-/

namespace ElectronDl

/-- Terminal states delivered with a `done` event (the `state` argument of
the `done` handler in the source). -/
inductive DoneState where
  | completed
  | cancelled
  | interrupted
deriving DecidableEq, Repr

/-- Host platform, as tested via `process.platform` in the source. -/
inductive Platform where
  | darwin
  | linux
  | win32
  | other
deriving DecidableEq, Repr

/-- Source: `['darwin', 'linux'].includes(process.platform)` — the gate for
dock/taskbar badge updates. -/
def badgePlatform : Platform → Bool
  | .darwin => true
  | .linux => true
  | _ => false

/-- The options object accepted by `registerListener`/`download`.  Function
options are modelled by presence flags (the embedding records their
invocations as effects); string options that the source tests for
truthiness are `Option String`. -/
structure Options where
  saveAs : Bool := false
  directory : Option String := none
  filename : Option String := none
  errorTitle : Option String := none
  errorMessage : Option String := none
  hasOnStarted : Bool := false
  hasOnProgress : Bool := false
  hasOnCancel : Bool := false
  openFolderWhenDone : Bool := false
  showBadge : Option Bool := none
  unregisterWhenDone : Bool := false
  webview : Bool := false
deriving DecidableEq, Repr

/-- JavaScript `a || b` for an optional string `a`: an absent or empty
string falls through to `b`. -/
def jsOrString : Option String → String → String
  | none, b => b
  | some s, b => if s = "" then b else s

/-- JavaScript truthiness of an optional string: present and nonempty. -/
def optTruthyStr : Option String → Bool
  | none => false
  | some s => !s.isEmpty

/-- Source lines 148-151: `download` spreads the caller's options and
forces `unregisterWhenDone: true` before calling `registerListener`. -/
def download_options (o : Options) : Options :=
  { o with unregisterWhenDone := true }

/-- POSIX `path.join` for the two-segment calls the source makes. -/
def pathJoin (a b : String) : String := a ++ "/" ++ b

/-- Characters of the final path segment (everything after the last `/`). -/
def basenameChars (p : String) : List Char :=
  (p.toList.reverse.takeWhile (fun c => c ≠ '/')).reverse

/-- Index of the last `.` in a character list, if any. -/
def lastDotIdx (b : List Char) : Option Nat :=
  match b.reverse.findIdx? (fun c => c = '.') with
  | none => none
  | some j => some (b.length - 1 - j)

/-- Node's `path.extname`: the suffix of the basename from its last dot;
empty when there is no dot, when the only dot leads a hidden file
(`.bashrc`), or for `..`. -/
def extnameOf (p : String) : String :=
  let b := basenameChars p
  match lastDotIdx b with
  | none => ""
  | some 0 => ""
  | some i => if b = ['.', '.'] then "" else String.mk (b.drop i)

/-- Source lines 8-16: `getFilenameFromMime`.  `db` stands for the
`ext-name` package's MIME lookup (`extName.mime`), returning the candidate
extension strings for a MIME type; the name is extended only when that
lookup yields exactly one candidate. -/
def getFilenameFromMime (db : String → List String) (name mime : String) : String :=
  let extensions := db mime
  if extensions.length ≠ 1 then
    name
  else
    name ++ "." ++ extensions.headD ""

/-- Source line 48: keep the suggested filename when it already has an
extension, otherwise try to derive one from the MIME type. -/
def filenameForItem (db : String → List String) (suggested mime : String) : String :=
  if extnameOf suggested ≠ "" then suggested
  else getFilenameFromMime db suggested mime

/-- Substitution core of the `pupa` template call: every `\x7bfilename\x7d`
placeholder in the template is replaced by `v`. -/
def pupaChars (v : List Char) : List Char → List Char
  | '{' :: 'f' :: 'i' :: 'l' :: 'e' :: 'n' :: 'a' :: 'm' :: 'e' :: '}' :: rest =>
      v ++ pupaChars v rest
  | c :: rest => c :: pupaChars v rest
  | [] => []

/-- Source line 113: `pupa(errorMessage, \x7bfilename: item.getFilename()\x7d)`. -/
def pupaFilename (tpl v : String) : String :=
  String.mk (pupaChars v.toList tpl.toList)

/-- Observable actions of the listener and its handlers, in program order:
host/UI calls, user callbacks and the completion callback. -/
inductive Effect where
  | setSavePath (id : Nat) (p : String)
  | onStartedEff (id : Nat)
  | setBadge (n : Nat)
  | setProgressBar (received totalB : Nat)
  | clearProgressBar
  | onProgressEff (percent : ℚ) (transferredBytes totalB : Nat)
  | removeListener
  | onCancelEff (id : Nat)
  | showErrorBox (title message : String)
  | callbackError (message : String)
  | dockDownloadFinished (p : String)
  | showItemInFolder (p : String)
  | callbackSuccess (id : Nat)
deriving DecidableEq, Repr

/-- Settlement of the promise returned by `download`. -/
inductive PromiseSettle where
  | resolved (id : Nat)
  | rejected (message : String)
deriving DecidableEq, Repr

/-- Source lines 154-160: `download`'s completion callback rejects the
promise on an error and resolves it with the item otherwise; every other
effect leaves the promise untouched. -/
def promiseOutcome : Effect → Option PromiseSettle
  | .callbackError m => some (.rejected m)
  | .callbackSuccess id => some (.resolved id)
  | _ => none

/-- Values captured by one item's handler closures: the item's identity,
whether `BrowserWindow.fromWebContents` found a window, and the resolved
`filePath`, `directory`, `errorMessage`, `errorTitle` locals. -/
structure ItemCtx where
  id : Nat
  hasWindow : Bool
  filePath : String
  directory : String
  errorMessage : String
  errorTitle : String
deriving DecidableEq, Repr

/-- Inputs of one `will-download` delivery: the item's readings at start
plus how its content context resolves. -/
structure ItemStart where
  id : Nat
  suggestedFilename : String
  mime : String
  totalBytes : Nat
  isWebviewContents : Bool
  hasWindow : Bool
deriving DecidableEq, Repr

/-- Mutable state of one registration: the `downloadItems` set (as an
insertion-ordered duplicate-free list of item ids), the three byte
counters, and whether the session listener is still attached. -/
structure RegState where
  downloadItems : List Nat
  receivedBytes : Nat
  completedBytes : Nat
  totalBytes : Nat
  listenerAttached : Bool
deriving DecidableEq, Repr

/-- JavaScript `Set.add`: append unless already present. -/
def setAdd (l : List Nat) (x : Nat) : List Nat :=
  if x ∈ l then l else l ++ [x]

/-- Source lines 31-61: the `will-download` listener body for one item.
`downloadsPath` stands for `app.getPath('downloads')`, `unused` for
`unusedFilename.sync`, `db` for the `ext-name` MIME lookup.  Returns the
updated counters, the closure values the item's handlers capture, and the
effects performed (save-path assignment, `onStarted`). -/
def listener (o : Options) (downloadsPath : String) (unused : String → String)
    (db : String → List String) (it : ItemStart) (s : RegState) :
    RegState × ItemCtx × List Effect :=
  let s1 : RegState :=
    { s with downloadItems := setAdd s.downloadItems it.id
             totalBytes := s.totalBytes + it.totalBytes }
  let directory := jsOrString o.directory downloadsPath
  let filePath :=
    if optTruthyStr o.filename then
      pathJoin directory (o.filename.getD "")
    else
      let name := filenameForItem db it.suggestedFilename it.mime
      unused (pathJoin directory name)
  let errorMessage := jsOrString o.errorMessage "The download of {filename} was interrupted"
  let errorTitle := jsOrString o.errorTitle "Download Error"
  let effs1 : List Effect := if o.saveAs then [] else [.setSavePath it.id filePath]
  let effs2 := if o.hasOnStarted then effs1 ++ [.onStartedEff it.id] else effs1
  (s1, ⟨it.id, it.hasWindow, filePath, directory, errorMessage, errorTitle⟩, effs2)

/-- Source lines 63-87: the `updated` handler.  `recv` gives each item's
current `getReceivedBytes()` reading, `itemTotal` this item's current
`getTotalBytes()`, `destroyed` the window's `isDestroyed()` at tick time.
When the item resolved to no window (`ctx.hasWindow = false`), the handler
throws at `window_.isDestroyed()` after recomputing `receivedBytes` and
updating the badge; the third component records that throw. -/
def updatedHandler (o : Options) (plat : Platform) (ctx : ItemCtx)
    (recv : Nat → Nat) (itemTotal : Nat) (destroyed : Bool) (s : RegState) :
    RegState × List Effect × Bool :=
  let s1 : RegState :=
    { s with receivedBytes := s.downloadItems.foldl (fun acc i => acc + recv i) s.completedBytes }
  let effs1 : List Effect :=
    if o.showBadge.getD true && badgePlatform plat then
      [.setBadge s1.downloadItems.length]
    else []
  if ctx.hasWindow then
    let effs2 :=
      if !destroyed then effs1 ++ [.setProgressBar s1.receivedBytes s1.totalBytes]
      else effs1
    let effs3 :=
      if o.hasOnProgress then
        effs2 ++ [.onProgressEff
          (if itemTotal ≠ 0 then (recv ctx.id : ℚ) / (itemTotal : ℚ) else 0)
          (recv ctx.id) itemTotal]
      else effs2
    (s1, effs3, false)
  else
    (s1, effs1, true)

/-- Source lines 89-127: the `done` handler.  `itemTotal` and `filename`
are the item's `getTotalBytes()`/`getFilename()` readings at the tick.
With no window the handler throws at `window_.isDestroyed()` (line 97)
after adding to `completedBytes`, evicting the item and updating the
badge — the counter reset, listener removal and state dispatch are then
all skipped. -/
def doneHandler (o : Options) (plat : Platform) (ctx : ItemCtx)
    (itemTotal : Nat) (filename : String) (st : DoneState) (destroyed : Bool)
    (s : RegState) : RegState × List Effect × Bool :=
  let s1 : RegState :=
    { s with completedBytes := s.completedBytes + itemTotal
             downloadItems := s.downloadItems.erase ctx.id }
  let effs1 : List Effect :=
    if o.showBadge.getD true && badgePlatform plat then
      [.setBadge s1.downloadItems.length]
    else []
  if ctx.hasWindow then
    let s2e :=
      if !destroyed && s1.downloadItems.isEmpty then
        (({ s1 with receivedBytes := 0, completedBytes := 0, totalBytes := 0 } : RegState),
          effs1 ++ [Effect.clearProgressBar])
      else (s1, effs1)
    let s3e :=
      if o.unregisterWhenDone && !o.webview then
        (({ s2e.1 with listenerAttached := false } : RegState), s2e.2 ++ [Effect.removeListener])
      else s2e
    let effs4 :=
      match st with
      | .cancelled =>
          if o.hasOnCancel then s3e.2 ++ [Effect.onCancelEff ctx.id] else s3e.2
      | .interrupted =>
          let message := pupaFilename ctx.errorMessage filename
          s3e.2 ++ [Effect.showErrorBox ctx.errorTitle message, Effect.callbackError message]
      | .completed =>
          let effsA :=
            if plat = Platform.darwin then s3e.2 ++ [Effect.dockDownloadFinished ctx.filePath]
            else s3e.2
          let effsB :=
            if o.openFolderWhenDone then
              effsA ++ [Effect.showItemInFolder (pathJoin ctx.directory filename)]
            else effsA
          effsB ++ [Effect.callbackSuccess ctx.id]
    (s3e.1, effs4, false)
  else
    (s1, effs1, true)

/-- One delivered event of a registration: a `will-download` start, or a
handler tick of an item.  `updated` carries the `getReceivedBytes()`
readings of all items, plus whether the item's window resolved and whether
it is destroyed at that tick; `done` likewise carries the item's total, its
terminal state and the window situation. -/
inductive Ev where
  | started (id : Nat) (total : Nat)
  | updated (id : Nat) (recv : Nat → Nat) (hasWin : Bool) (destroyed : Bool)
  | done (id : Nat) (total : Nat) (st : DoneState) (hasWin : Bool) (destroyed : Bool)

/-- State transition of one event: a start is handled only while the
session listener is attached (`session.on('will-download', listener)`);
handler ticks run through `updatedHandler`/`doneHandler`.  Platform and the
string-valued closure fields do not affect the counter state, so the
projections use fixed dummies. -/
def stepEv (o : Options) (s : RegState) : Ev → RegState
  | .started id total =>
      if s.listenerAttached then
        (listener o "" (fun p => p) (fun _ => []) ⟨id, "", "", total, false, true⟩ s).1
      else s
  | .updated id recvF hasWin destroyed =>
      (updatedHandler o Platform.linux ⟨id, hasWin, "", "", "", ""⟩ recvF 0 destroyed s).1
  | .done id total st hasWin destroyed =>
      (doneHandler o Platform.linux ⟨id, hasWin, "", "", "", ""⟩ total "" st destroyed s).1

/-- Fresh registration state: no items, zero counters, listener attached. -/
def initState : RegState := ⟨[], 0, 0, 0, true⟩

/-- Run a registration over a sequence of delivered events. -/
def runTrace (o : Options) (evs : List Ev) : RegState :=
  evs.foldl (stepEv o) initState

/-- The reduce in the `updated` handler, seeded with `completedBytes` and
adding each item's received bytes, computes `completedBytes` plus the sum
of the received bytes of the listed items. -/
theorem sum_foldl_received (f : Nat → Nat) :
    ∀ (l : List Nat) (c : Nat),
      l.foldl (fun acc i => acc + f i) c = c + (l.map f).sum := by
  intro l
  induction l with
  | nil => intro c; simp
  | cons a t ih => intro c; simp [List.foldl_cons, ih]; omega

/-- C1: for every registration (options) and every event sequence, after an
`updated` handler run the aggregate counter `receivedBytes` equals
`completedBytes` plus the sum of the current received-bytes readings of all
items in the ActiveSet. -/
theorem C1_receivedBytes_invariant_after_updated (o : Options) (evs : List Ev)
    (id : Nat) (recvF : Nat → Nat) (hw d : Bool) :
    (stepEv o (runTrace o evs) (.updated id recvF hw d)).receivedBytes =
      (stepEv o (runTrace o evs) (.updated id recvF hw d)).completedBytes +
        (((stepEv o (runTrace o evs) (.updated id recvF hw d)).downloadItems).map recvF).sum := by
  cases hw <;> simp [stepEv, updatedHandler, sum_foldl_received]

/-- C2 counterexample: a `done` event that empties the ActiveSet while the
item's window is destroyed leaves `totalBytes = 100` and
`completedBytes = 100` — the counters are not reset, contradicting the
claim that emptying the ActiveSet always resets all three counters. -/
theorem C2_counterexample :
    (runTrace {} [.started 0 100, .done 0 100 .completed true true]).downloadItems = [] ∧
    (runTrace {} [.started 0 100, .done 0 100 .completed true true]).totalBytes = 100 ∧
    (runTrace {} [.started 0 100, .done 0 100 .completed true true]).completedBytes = 100 := by
  refine ⟨rfl, rfl, rfl⟩

/-- C2 (amended): when a `done` event whose item resolved to a live
(non-destroyed) window empties the ActiveSet, all three byte counters are
reset to 0. -/
theorem C2_amended_counters_reset_on_empty (o : Options) (s : RegState)
    (id total : Nat) (st : DoneState)
    (h : (stepEv o s (.done id total st true false)).downloadItems = []) :
    (stepEv o s (.done id total st true false)).receivedBytes = 0 ∧
    (stepEv o s (.done id total st true false)).completedBytes = 0 ∧
    (stepEv o s (.done id total st true false)).totalBytes = 0 := by
  by_cases he : ((s.downloadItems.erase id).isEmpty) = true
  · by_cases hu : (o.unregisterWhenDone && !o.webview) = true <;>
      simp [stepEv, doneHandler, he, hu]
  · exfalso
    apply he
    have hd : (stepEv o s (.done id total st true false)).downloadItems =
        s.downloadItems.erase id := by
      by_cases hu : (o.unregisterWhenDone && !o.webview) = true <;>
        simp [stepEv, doneHandler, he, hu]
    rw [hd] at h
    simp [h]

/-- C2 witness: a concrete registration whose single item finishes with a
live window; the reset hypothesis is discharged by evaluation. -/
theorem C2_amended_counters_reset_on_empty_witness :
    (stepEv {} ⟨[5], 40, 0, 100, true⟩ (.done 5 100 .completed true false)).receivedBytes = 0 ∧
    (stepEv {} ⟨[5], 40, 0, 100, true⟩ (.done 5 100 .completed true false)).completedBytes = 0 ∧
    (stepEv {} ⟨[5], 40, 0, 100, true⟩ (.done 5 100 .completed true false)).totalBytes = 0 :=
  C2_amended_counters_reset_on_empty {} ⟨[5], 40, 0, 100, true⟩ 5 100 .completed (by decide)

/-- C9: the options `download` passes to `registerListener` have
`unregisterWhenDone` forced to `true`, and every other field is the
caller's value unchanged. -/
theorem C9_download_forces_unregisterWhenDone (o : Options) :
    (download_options o).unregisterWhenDone = true ∧
    (download_options o).saveAs = o.saveAs ∧
    (download_options o).directory = o.directory ∧
    (download_options o).filename = o.filename ∧
    (download_options o).errorTitle = o.errorTitle ∧
    (download_options o).errorMessage = o.errorMessage ∧
    (download_options o).hasOnStarted = o.hasOnStarted ∧
    (download_options o).hasOnProgress = o.hasOnProgress ∧
    (download_options o).hasOnCancel = o.hasOnCancel ∧
    (download_options o).openFolderWhenDone = o.openFolderWhenDone ∧
    (download_options o).showBadge = o.showBadge ∧
    (download_options o).webview = o.webview :=
  ⟨rfl, rfl, rfl, rfl, rfl, rfl, rfl, rfl, rfl, rfl, rfl, rfl⟩

/-- C3: for a suggested filename without an extension, the derived name
appends a dot and the extension exactly when the MIME type maps to exactly
one known extension; with 0 or at least 2 candidates the name is returned
unchanged. -/
theorem C3_filename_derivation (db : String → List String) (name mime : String)
    (h : extnameOf name = "") :
    (∀ e, db mime = [e] → filenameForItem db name mime = name ++ "." ++ e) ∧
    ((db mime).length ≠ 1 → filenameForItem db name mime = name) := by
  constructor
  · intro e he
    simp [filenameForItem, h, getFilenameFromMime, he]
  · intro hne
    simp [filenameForItem, h, getFilenameFromMime, hne]

/-- C3 witness: `"report"` with `application/pdf` (unique candidate `pdf`)
derives `"report.pdf"`; with a MIME type of 0 candidates or of 2 candidates
the name is unchanged. -/
theorem C3_filename_derivation_witness :
    filenameForItem (fun m => if m = "application/pdf" then ["pdf"] else [])
      "report" "application/pdf" = "report.pdf" ∧
    filenameForItem (fun m => if m = "application/pdf" then ["pdf"] else [])
      "report" "text/unknown" = "report" ∧
    filenameForItem (fun _ => ["doc", "docx"]) "report" "x/y" = "report" := by
  refine ⟨?_, ?_, ?_⟩
  · exact ((C3_filename_derivation (fun m => if m = "application/pdf" then ["pdf"] else [])
      "report" "application/pdf" (by decide)).1 "pdf" (by decide)).trans rfl
  · exact (C3_filename_derivation (fun m => if m = "application/pdf" then ["pdf"] else [])
      "report" "text/unknown" (by decide)).2 (by decide)
  · exact (C3_filename_derivation (fun _ => ["doc", "docx"])
      "report" "x/y" (by decide)).2 (by decide)

/-- C4: every `onProgress` payload emitted by an `updated` tick is
per-item: percent is the item's received bytes divided by its total bytes
when that total is nonzero and 0 when it is zero, transferredBytes is the
item's received bytes, and totalBytes is the item's total bytes. -/
theorem C4_onProgress_payload (o : Options) (plat : Platform) (ctx : ItemCtx)
    (recvF : Nat → Nat) (itemTotal : Nat) (destroyed : Bool) (s : RegState)
    (pc : ℚ) (tb tt : Nat)
    (h : Effect.onProgressEff pc tb tt ∈
      (updatedHandler o plat ctx recvF itemTotal destroyed s).2.1) :
    pc = (if itemTotal ≠ 0 then (recvF ctx.id : ℚ) / (itemTotal : ℚ) else 0) ∧
    tb = recvF ctx.id ∧ tt = itemTotal := by
  by_cases hw : ctx.hasWindow = true <;> simp [updatedHandler, hw] at h
  split_ifs at h <;> simp_all

/-- C4 witness: a concrete tick with 30 of 60 bytes received emits an
`onProgress` payload whose percent is one half. -/
theorem C4_onProgress_payload_witness :
    Effect.onProgressEff ((30 : ℚ) / 60) 30 60 ∈
      (updatedHandler {hasOnProgress := true} .linux ⟨0, true, "", "", "", ""⟩
        (fun _ => 30) 60 false ⟨[0], 0, 0, 60, true⟩).2.1 ∧
    ((30 : ℚ) / 60 = (if (60 : Nat) ≠ 0 then ((30 : Nat) : ℚ) / ((60 : Nat) : ℚ) else 0) ∧
      (30 : Nat) = 30 ∧ (60 : Nat) = 60) := by
  have hmem : Effect.onProgressEff ((30 : ℚ) / 60) 30 60 ∈
      (updatedHandler {hasOnProgress := true} .linux ⟨0, true, "", "", "", ""⟩
        (fun _ => 30) 60 false ⟨[0], 0, 0, 60, true⟩).2.1 := by
    simp [updatedHandler, badgePlatform]
  exact ⟨hmem, C4_onProgress_payload {hasOnProgress := true} .linux
    ⟨0, true, "", "", "", ""⟩ (fun _ => 30) 60 false ⟨[0], 0, 0, 60, true⟩
    ((30 : ℚ) / 60) 30 60 hmem⟩

/-- C5 counterexample: an interrupted item whose content context resolved
to no window produces only the badge effect — no error dialog is shown and
the completion callback is never invoked (the handler throws at the
window-aliveness check), contradicting the claim for such items. -/
theorem C5_counterexample :
    (doneHandler {} .linux
      ⟨0, false, "p", "d", "The download of {filename} was interrupted", "Download Error"⟩
      5 "f.zip" .interrupted false ⟨[0], 0, 0, 5, true⟩).2.1 = [Effect.setBadge 0] ∧
    (doneHandler {} .linux
      ⟨0, false, "p", "d", "The download of {filename} was interrupted", "Download Error"⟩
      5 "f.zip" .interrupted false ⟨[0], 0, 0, 5, true⟩).2.2 = true :=
  ⟨rfl, rfl⟩

/-- C5 (amended): for every interrupted item whose window resolved (even a
destroyed one), the handler shows a blocking error dialog with the
configured title and the template with `\x7bfilename\x7d` substituted, then
invokes the completion callback with that message, so the `download`
promise rejects with it; with the default template the message contains
the filename. -/
theorem C5_amended_interrupted_rejects (o : Options) (plat : Platform)
    (ctx : ItemCtx) (itemTotal : Nat) (fname : String) (destroyed : Bool)
    (s : RegState) (hw : ctx.hasWindow = true) :
    (∃ pre, (doneHandler o plat ctx itemTotal fname .interrupted destroyed s).2.1 =
        pre ++ [Effect.showErrorBox ctx.errorTitle (pupaFilename ctx.errorMessage fname),
          Effect.callbackError (pupaFilename ctx.errorMessage fname)]) ∧
    ((doneHandler o plat ctx itemTotal fname .interrupted destroyed s).2.1.filterMap
        promiseOutcome =
      [PromiseSettle.rejected (pupaFilename ctx.errorMessage fname)]) ∧
    (ctx.errorMessage = "The download of {filename} was interrupted" →
      ∃ a b, pupaFilename ctx.errorMessage fname = a ++ fname ++ b) := by
  refine ⟨?_, ?_, ?_⟩
  · simp only [doneHandler, hw, if_true]
    exact ⟨_, rfl⟩
  · simp only [doneHandler, hw, if_true]
    split_ifs <;> simp [promiseOutcome]
  · intro hmsg
    exact ⟨"The download of ", " was interrupted", by rw [hmsg]; rfl⟩

/-- C5 witness: a concrete interrupted item with a live window rejects the
promise with the substituted default message, which contains the
filename. -/
theorem C5_amended_interrupted_rejects_witness :
    ((doneHandler {} .other
        ⟨1, true, "/d/f.zip", "/d", "The download of {filename} was interrupted",
          "Download Error"⟩
        5 "f.zip" .interrupted false ⟨[1], 0, 0, 5, true⟩).2.1.filterMap promiseOutcome =
      [PromiseSettle.rejected
        (pupaFilename "The download of {filename} was interrupted" "f.zip")]) ∧
    (∃ a b, pupaFilename "The download of {filename} was interrupted" "f.zip" =
      a ++ "f.zip" ++ b) :=
  ⟨(C5_amended_interrupted_rejects {} .other
      ⟨1, true, "/d/f.zip", "/d", "The download of {filename} was interrupted",
        "Download Error"⟩
      5 "f.zip" false ⟨[1], 0, 0, 5, true⟩ rfl).2.1,
    (C5_amended_interrupted_rejects {} .other
      ⟨1, true, "/d/f.zip", "/d", "The download of {filename} was interrupted",
        "Download Error"⟩
      5 "f.zip" false ⟨[1], 0, 0, 5, true⟩ rfl).2.2 rfl⟩

/-- C6 counterexample: a cancelled item with `onCancel` supplied whose
content context resolved to no window never invokes `onCancel` — the
handler throws at the window-aliveness check first — contradicting the
claim that `onCancel` is invoked for every cancelled item when supplied. -/
theorem C6_counterexample :
    (doneHandler {hasOnCancel := true} .linux ⟨0, false, "p", "d", "m", "t"⟩
      5 "f.zip" .cancelled false ⟨[0], 0, 0, 5, true⟩).2.1 = [Effect.setBadge 0] ∧
    (doneHandler {hasOnCancel := true} .linux ⟨0, false, "p", "d", "m", "t"⟩
      5 "f.zip" .cancelled false ⟨[0], 0, 0, 5, true⟩).2.2 = true :=
  ⟨rfl, rfl⟩

/-- C6 (amended): a cancelled item never settles the `download` promise —
no completion-callback effect is ever emitted — and, when the item's
window resolved, `onCancel` is invoked exactly when it was supplied. -/
theorem C6_amended_cancelled_silent (o : Options) (plat : Platform)
    (ctx : ItemCtx) (itemTotal : Nat) (fname : String) (destroyed : Bool)
    (s : RegState) :
    ((doneHandler o plat ctx itemTotal fname .cancelled destroyed s).2.1.filterMap
        promiseOutcome = []) ∧
    (ctx.hasWindow = true →
      (Effect.onCancelEff ctx.id ∈
          (doneHandler o plat ctx itemTotal fname .cancelled destroyed s).2.1 ↔
        o.hasOnCancel = true)) := by
  constructor
  · by_cases hw : ctx.hasWindow = true <;>
      simp only [doneHandler, hw, if_true, Bool.false_eq_true, if_false] <;>
      split_ifs <;> simp [promiseOutcome]
  · intro hw
    simp only [doneHandler, hw, if_true]
    split_ifs <;> simp_all

/-- C6 witness: a concrete cancelled item with a live window and a supplied
`onCancel`: the promise never settles and `onCancel` fires. -/
theorem C6_amended_cancelled_silent_witness :
    ((doneHandler {hasOnCancel := true} .other ⟨2, true, "", "", "", ""⟩
        5 "n" .cancelled false ⟨[2], 0, 0, 5, true⟩).2.1.filterMap promiseOutcome = []) ∧
    Effect.onCancelEff 2 ∈
      (doneHandler {hasOnCancel := true} .other ⟨2, true, "", "", "", ""⟩
        5 "n" .cancelled false ⟨[2], 0, 0, 5, true⟩).2.1 :=
  ⟨(C6_amended_cancelled_silent {hasOnCancel := true} .other ⟨2, true, "", "", "", ""⟩
      5 "n" false ⟨[2], 0, 0, 5, true⟩).1,
    ((C6_amended_cancelled_silent {hasOnCancel := true} .other ⟨2, true, "", "", "", ""⟩
      5 "n" false ⟨[2], 0, 0, 5, true⟩).2 rfl).mpr rfl⟩

/-- C7 counterexample: for an item whose content context resolves to no
usable window, both the `updated` and the `done` handler throw (at
`window_.isDestroyed()` on a null window), and the completion callback for
a completed item never runs — contradicting the claim that the handlers do
not throw and the callback still runs. -/
theorem C7_counterexample :
    (updatedHandler {} .linux ⟨0, false, "", "", "", ""⟩ (fun _ => 7) 10 false
      ⟨[0], 0, 0, 10, true⟩).2.2 = true ∧
    (doneHandler {} .linux ⟨0, false, "", "", "", ""⟩ 10 "n" .completed false
      ⟨[0], 0, 0, 10, true⟩).2.2 = true ∧
    (doneHandler {} .linux ⟨0, false, "", "", "", ""⟩ 10 "n" .completed false
      ⟨[0], 0, 0, 10, true⟩).2.1.filterMap promiseOutcome = [] :=
  ⟨rfl, rfl, rfl⟩

/-- C7 (amended): when no window resolves, the handlers throw at the
window-aliveness check — the counters (and badge) are still updated first,
but `onProgress`, the counter reset and the completion callback are
skipped; when a window resolves but is destroyed at tick time, the
handlers do not throw, the progress bar is skipped, and counter updates
and the completion callback still run. -/
theorem C7_amended_window_gating (o : Options) (plat : Platform) (ctx : ItemCtx)
    (recvF : Nat → Nat) (itemTotal : Nat) (fname : String) (st : DoneState)
    (destroyed : Bool) (s : RegState) :
    (ctx.hasWindow = false →
      (updatedHandler o plat ctx recvF itemTotal destroyed s).2.2 = true ∧
      (updatedHandler o plat ctx recvF itemTotal destroyed s).1.receivedBytes =
        s.completedBytes + (s.downloadItems.map recvF).sum ∧
      (doneHandler o plat ctx itemTotal fname st destroyed s).2.2 = true ∧
      (doneHandler o plat ctx itemTotal fname st destroyed s).1.completedBytes =
        s.completedBytes + itemTotal ∧
      (doneHandler o plat ctx itemTotal fname st destroyed s).2.1.filterMap
        promiseOutcome = []) ∧
    (ctx.hasWindow = true →
      (updatedHandler o plat ctx recvF itemTotal true s).2.2 = false ∧
      (∀ r t, Effect.setProgressBar r t ∉
        (updatedHandler o plat ctx recvF itemTotal true s).2.1) ∧
      (updatedHandler o plat ctx recvF itemTotal true s).1.receivedBytes =
        s.completedBytes + (s.downloadItems.map recvF).sum ∧
      (doneHandler o plat ctx itemTotal fname .completed true s).2.2 = false ∧
      (doneHandler o plat ctx itemTotal fname .completed true s).2.1.filterMap
        promiseOutcome = [PromiseSettle.resolved ctx.id]) := by
  constructor
  · intro hw
    refine ⟨?_, ?_, ?_, ?_, ?_⟩
    · simp [updatedHandler, hw]
    · simp [updatedHandler, hw, sum_foldl_received]
    · simp [doneHandler, hw]
    · simp [doneHandler, hw]
    · simp only [doneHandler, hw, Bool.false_eq_true, if_false]
      split_ifs <;> simp [promiseOutcome]
  · intro hw
    refine ⟨?_, ?_, ?_, ?_, ?_⟩
    · simp [updatedHandler, hw]
    · intro r t
      simp only [updatedHandler, hw, if_true]
      split_ifs <;> simp_all
    · simp [updatedHandler, hw, sum_foldl_received]
    · simp [doneHandler, hw]
    · simp only [doneHandler, hw, if_true]
      split_ifs <;> simp [promiseOutcome]

/-- C7 witness: a concrete no-window tick throws, and a concrete
destroyed-window completion still resolves the promise with the item. -/
theorem C7_amended_window_gating_witness :
    (updatedHandler {} .linux ⟨0, false, "", "", "", ""⟩ (fun _ => 7) 10 false
      ⟨[0], 0, 0, 10, true⟩).2.2 = true ∧
    (doneHandler {} .other ⟨3, true, "", "", "", ""⟩ 10 "n" .completed true
      ⟨[3], 0, 0, 10, true⟩).2.1.filterMap promiseOutcome =
      [PromiseSettle.resolved 3] :=
  ⟨((C7_amended_window_gating {} .linux ⟨0, false, "", "", "", ""⟩ (fun _ => 7) 10
      "n" .completed false ⟨[0], 0, 0, 10, true⟩).1 rfl).1,
    ((C7_amended_window_gating {} .other ⟨3, true, "", "", "", ""⟩ (fun _ => 7) 10
      "n" .completed true ⟨[3], 0, 0, 10, true⟩).2 rfl).2.2.2.2⟩

/-- C8 counterexample: with `unregisterWhenDone` set on a non-webview
registration, an item whose content context resolved to no window reaches
`done` without the listener being removed (the handler throws first), and
a later `started` event is still handled — contradicting the claim that no
start after the first `done` is ever handled. -/
theorem C8_counterexample :
    (runTrace {unregisterWhenDone := true}
      [.started 0 100, .done 0 100 .completed false false]).listenerAttached = true ∧
    (runTrace {unregisterWhenDone := true}
      [.started 0 100, .done 0 100 .completed false false,
        .started 1 50]).downloadItems = [1] :=
  ⟨rfl, rfl⟩

/-- C8 (amended): on a non-webview registration with `unregisterWhenDone`,
a `done` event of an item whose window resolved detaches the session
listener, and once detached every further `started` event leaves the
registration state unchanged (it is not handled). -/
theorem C8_amended_unregister_on_done (o : Options)
    (h1 : o.unregisterWhenDone = true) (h2 : o.webview = false) :
    (∀ (s : RegState) (id total : Nat) (st : DoneState) (d : Bool),
      (stepEv o s (.done id total st true d)).listenerAttached = false) ∧
    (∀ (s : RegState) (id total : Nat),
      s.listenerAttached = false → stepEv o s (.started id total) = s) := by
  constructor
  · intro s id total st d
    by_cases hr : (!d && (s.downloadItems.erase id).isEmpty) = true <;>
      cases st <;> simp [stepEv, doneHandler, h1, h2, hr]
  · intro s id total h
    simp [stepEv, h]

/-- C8 witness: a concrete registration detaches on its item's `done` and
then ignores a fresh `started` event. -/
theorem C8_amended_unregister_on_done_witness :
    (stepEv {unregisterWhenDone := true} ⟨[3], 0, 0, 9, true⟩
      (.done 3 9 .completed true false)).listenerAttached = false ∧
    stepEv {unregisterWhenDone := true} ⟨[], 0, 0, 0, false⟩ (.started 7 5) =
      ⟨[], 0, 0, 0, false⟩ :=
  ⟨(C8_amended_unregister_on_done {unregisterWhenDone := true} rfl rfl).1
      ⟨[3], 0, 0, 9, true⟩ 3 9 .completed false,
    (C8_amended_unregister_on_done {unregisterWhenDone := true} rfl rfl).2
      ⟨[], 0, 0, 0, false⟩ 7 5 rfl⟩

/-- C10: every folder-reveal effect of a `done` handler points at the
configured directory joined with the item's suggested filename
(`item.getFilename()`); with a live window and `openFolderWhenDone` that
effect is emitted on completion; and the listener's resolved save path can
differ from that revealed path (here: the `filename` option was given). -/
theorem C10_reveal_uses_suggested_name :
    (∀ (o : Options) (plat : Platform) (ctx : ItemCtx) (itemTotal : Nat)
        (fname : String) (st : DoneState) (destroyed : Bool) (s : RegState)
        (p : String),
      Effect.showItemInFolder p ∈
          (doneHandler o plat ctx itemTotal fname st destroyed s).2.1 →
        p = pathJoin ctx.directory fname) ∧
    (∀ (o : Options) (plat : Platform) (ctx : ItemCtx) (itemTotal : Nat)
        (fname : String) (destroyed : Bool) (s : RegState),
      ctx.hasWindow = true → o.openFolderWhenDone = true →
        Effect.showItemInFolder (pathJoin ctx.directory fname) ∈
          (doneHandler o plat ctx itemTotal fname .completed destroyed s).2.1) ∧
    ((listener {filename := some "custom.bin"} "/downloads" (fun p => p)
        (fun _ => []) ⟨1, "report.pdf", "application/pdf", 100, false, true⟩
        initState).2.1.filePath ≠
      pathJoin ((listener {filename := some "custom.bin"} "/downloads" (fun p => p)
        (fun _ => []) ⟨1, "report.pdf", "application/pdf", 100, false, true⟩
        initState).2.1.directory) "report.pdf") := by
  refine ⟨?_, ?_, ?_⟩
  · intro o plat ctx itemTotal fname st destroyed s p h
    by_cases hw : ctx.hasWindow = true <;>
      cases st <;>
      simp only [doneHandler, hw, if_true, Bool.false_eq_true, if_false] at h <;>
      split_ifs at h <;> simp_all
  · intro o plat ctx itemTotal fname destroyed s hw hof
    simp only [doneHandler, hw, hof, if_true]
    split_ifs <;> simp
  · decide

/-- C10 witness: a concrete completed item with a live window and
`openFolderWhenDone` reveals directory/suggested-filename. -/
theorem C10_reveal_uses_suggested_name_witness :
    Effect.showItemInFolder (pathJoin "/dl" "r.pdf") ∈
      (doneHandler {openFolderWhenDone := true} .other
        ⟨4, true, "/dl/r.pdf", "/dl", "m", "t"⟩ 10 "r.pdf" .completed false
        ⟨[4], 0, 0, 10, true⟩).2.1 :=
  C10_reveal_uses_suggested_name.2.1 {openFolderWhenDone := true} .other
    ⟨4, true, "/dl/r.pdf", "/dl", "m", "t"⟩ 10 "r.pdf" false
    ⟨[4], 0, 0, 10, true⟩ rfl rfl

end ElectronDl
